import Mathlib

/-!
Verification development for the stateful metrics sampler of
`macos_performance_monitor.py` (class `MacOSPerformanceMonitor`).

The embedding is shallow: Python floats and timestamps are modelled as
rationals, the `psutil` counter snapshots are explicit inputs, and each
stateful method becomes a pure function from the monitor state (and the
inputs the method reads from the operating system) to its result together
with the updated state.  Numeric display rounding (`round(x, 2)`) is
modelled as round-half-even at two decimal places, Python's rounding mode.
-/

/-- Round-half-even to an integer, modelling Python's builtin `round`. -/
def pyRoundInt (x : ℚ) : ℤ :=
  let f := ⌊x⌋
  let frac := x - (f : ℚ)
  if frac < 1/2 then f
  else if 1/2 < frac then f + 1
  else if f % 2 = 0 then f else f + 1

/-- Python `round(x, 2)`: round-half-even at two decimal places. -/
def round2 (x : ℚ) : ℚ := (pyRoundInt (x * 100) : ℚ) / 100

/-- One mebibyte, `1024**2`, the divisor used for MiB conversions. -/
def mib : ℚ := 1024 ^ 2

/-- One gibibyte, `1024**3`, the divisor used for GiB conversions. -/
def gib : ℚ := 1024 ^ 3

/-- The epsilon floor `1e-6` used for the elapsed-time divisor. -/
def rateEps : ℚ := 1 / 1000000

/-- Elapsed-time window `dt = max(now - prev_ts, 1e-6)` used as the divisor
of every rate computation in `get_network_info` and `get_disk_info`. -/
def rateWindow (prevTs now : ℚ) : ℚ := max (now - prevTs) rateEps

/-- Fields of `psutil.net_io_counters()` read by the monitor. -/
structure NetCounters where
  bytes_sent : ℕ
  bytes_recv : ℕ
  packets_sent : ℕ
  packets_recv : ℕ
deriving DecidableEq

/-- Fields of `psutil.disk_io_counters()` read by the monitor. -/
structure DiskCounters where
  read_bytes : ℕ
  write_bytes : ℕ
  read_count : ℕ
  write_count : ℕ
deriving DecidableEq

/-- The mutable instance state of `MacOSPerformanceMonitor`.  Field names
follow the Python attributes (leading underscores dropped):
`start_time`, `network_io_start`, `_prev_net_io`, `_prev_disk_io`,
`_prev_sample_ts`, `_last_temp`, `_last_temp_ts`, `enable_temps`,
`temp_refresh_seconds`, `_proc_prime_ts`.  The cached temperature dict is
either absent (`None`) or `{'cpu_temp_c': v}`, so it is an `Option ℚ`. -/
structure MonitorState where
  start_time : ℚ
  network_start : NetCounters
  prev_net_counters : NetCounters
  prev_disk_counters : DiskCounters
  prev_sample_ts : ℚ
  last_temp : Option ℚ
  last_temp_ts : ℚ
  enable_temps : Bool
  temp_refresh_seconds : ℚ
  proc_prime_ts : ℚ
deriving DecidableEq

/-- `MacOSPerformanceMonitor.__init__`: samples the counters once at
construction time `now` and stores them as the first baselines (the
constructor assumes both counter families are available, as on macOS). -/
def MonitorState.init (now : ℚ) (net0 : NetCounters) (disk0 : DiskCounters) :
    MonitorState where
  start_time := now
  network_start := net0
  prev_net_counters := net0
  prev_disk_counters := disk0
  prev_sample_ts := now
  last_temp := none
  last_temp_ts := 0
  enable_temps := false
  temp_refresh_seconds := 5
  proc_prime_ts := 0

/-- The dict returned by `get_network_info`. -/
structure NetworkReport where
  bytes_sent_mib : ℚ
  bytes_recv_mib : ℚ
  send_rate_mib_s : ℚ
  recv_rate_mib_s : ℚ
  packets_sent : ℕ
  packets_recv : ℕ
deriving DecidableEq

/-- `MacOSPerformanceMonitor.get_network_info`, with the fresh counter
sample `net` and the wall-clock time `now` as explicit inputs.  Mirrors the
source: `dt = max(now - self._prev_sample_ts, 1e-6)`, the send/receive
deltas are divided by `dt` with no clamping, and both `_prev_net_io` and
`_prev_sample_ts` advance. -/
def get_network_info (s : MonitorState) (net : NetCounters) (now : ℚ) :
    NetworkReport × MonitorState :=
  let dt := rateWindow s.prev_sample_ts now
  let sent_rate := ((net.bytes_sent : ℚ) - (s.prev_net_counters.bytes_sent : ℚ)) / dt
  let recv_rate := ((net.bytes_recv : ℚ) - (s.prev_net_counters.bytes_recv : ℚ)) / dt
  let report : NetworkReport :=
    { bytes_sent_mib := round2 ((net.bytes_sent : ℚ) / mib)
      bytes_recv_mib := round2 ((net.bytes_recv : ℚ) / mib)
      send_rate_mib_s := round2 (sent_rate / mib)
      recv_rate_mib_s := round2 (recv_rate / mib)
      packets_sent := net.packets_sent
      packets_recv := net.packets_recv }
  (report, { s with prev_net_counters := net, prev_sample_ts := now })

/-- One entry of `psutil.disk_partitions()`. -/
structure PartitionEntry where
  device : String
  mountpoint : String
  fstype : String
deriving DecidableEq

/-- Result of `psutil.disk_usage(mountpoint)` for one partition. -/
structure DiskUsage where
  total : ℕ
  used : ℕ
  free : ℕ
  percent : ℚ
deriving DecidableEq

/-- One element of the `partitions` list returned by `get_disk_info`. -/
structure PartitionReport where
  device : String
  mountpoint : String
  fstype : String
  total_gib : ℚ
  used_gib : ℚ
  free_gib : ℚ
  percent : ℚ
deriving DecidableEq

/-- The `io_stats` dict of `get_disk_info`. -/
structure DiskRatesReport where
  read_mib : ℚ
  write_mib : ℚ
  read_rate_mib_s : ℚ
  write_rate_mib_s : ℚ
  read_count : ℕ
  write_count : ℕ
deriving DecidableEq

/-- The dict returned by `get_disk_info`. -/
structure DiskReport where
  partitions : List PartitionReport
  io_stats : Option DiskRatesReport
deriving DecidableEq

/-- `MacOSPerformanceMonitor.get_disk_info`.  `parts` pairs each partition
with `some usage`, or `none` when `disk_usage` raised (that partition is
skipped).  `counters` is `psutil.disk_io_counters()`, `none` when that call
returned a falsy value, in which case `io_stats` is `None` and no state
changes.  Otherwise the read/write byte deltas against `_prev_disk_io` are
divided by `1024**2` and by `dt = max(now - self._prev_sample_ts, 1e-6)`,
with no clamping, and only `_prev_disk_io` is replaced: `_prev_sample_ts`
is not touched by this method. -/
def get_disk_info (s : MonitorState) (parts : List (PartitionEntry × Option DiskUsage))
    (counters : Option DiskCounters) (now : ℚ) : DiskReport × MonitorState :=
  let partitionReports := parts.filterMap fun pu =>
    pu.2.map fun usage =>
      { device := pu.1.device
        mountpoint := pu.1.mountpoint
        fstype := pu.1.fstype
        total_gib := round2 ((usage.total : ℚ) / gib)
        used_gib := round2 ((usage.used : ℚ) / gib)
        free_gib := round2 ((usage.free : ℚ) / gib)
        percent := usage.percent }
  match counters with
  | none => ({ partitions := partitionReports, io_stats := none }, s)
  | some c =>
    let dt := rateWindow s.prev_sample_ts now
    let prev := s.prev_disk_counters
    let read_rate := ((c.read_bytes : ℚ) - (prev.read_bytes : ℚ)) / mib / dt
    let write_rate := ((c.write_bytes : ℚ) - (prev.write_bytes : ℚ)) / mib / dt
    let stats : DiskRatesReport :=
      { read_mib := round2 ((c.read_bytes : ℚ) / mib)
        write_mib := round2 ((c.write_bytes : ℚ) / mib)
        read_rate_mib_s := round2 read_rate
        write_rate_mib_s := round2 write_rate
        read_count := c.read_count
        write_count := c.write_count }
    ({ partitions := partitionReports, io_stats := some stats },
      { s with prev_disk_counters := c })

/-- Outcome of one completed `subprocess.run` of the `powermetrics` probe:
its exit code and the `cpu_temp_c` value parsed from its stdout (`none`
when no `CPU die temperature` line parsed, i.e. the `temps` dict stayed
empty). -/
structure ProbeRun where
  returncode : ℤ
  cpu_temp : Option ℚ
deriving DecidableEq

/-- Outcome of invoking the probe: `raised` models the caught
`TimeoutExpired` / `CalledProcessError` / `FileNotFoundError` exceptions,
`completed` a run that returned. -/
inductive ProbeOutcome where
  | raised : ProbeOutcome
  | completed : ProbeRun → ProbeOutcome
deriving DecidableEq

/-- The temperature value the probe outcome would cache on the zero-exit
path (`temps if temps else None`). -/
def ProbeOutcome.temps : ProbeOutcome → Option ℚ
  | .raised => none
  | .completed r => r.cpu_temp

/-- `MacOSPerformanceMonitor.get_temperature_info`.  The `probe` argument
is the outcome the external probe produces if it is invoked; the `Bool`
component of the result records whether it actually was invoked.  Mirrors
the source: return `None` when temps are disabled; return the cached value
on `now - _last_temp_ts < temp_refresh_seconds` and a non-`None` cache;
otherwise run the probe once, and only on exit code 0 store the parsed
result (possibly `None`) with a fresh timestamp. -/
def get_temperature_info (s : MonitorState) (now : ℚ) (probe : ProbeOutcome) :
    Option ℚ × Bool × MonitorState :=
  if s.enable_temps = false then (none, false, s)
  else if now - s.last_temp_ts < s.temp_refresh_seconds ∧ s.last_temp ≠ none then
    (s.last_temp, false, s)
  else
    match probe with
    | .raised => (none, true, s)
    | .completed r =>
      if r.returncode = 0 then
        (r.cpu_temp, true, { s with last_temp := r.cpu_temp, last_temp_ts := now })
      else (none, true, s)

/-- One successfully enumerated row of
`psutil.process_iter(['pid', 'name', 'cpu_percent', 'memory_percent',
'username'])`; the percentage gauges may be `None`. -/
structure ProcSample where
  pid : ℕ
  name : String
  cpu_percent : Option ℚ
  memory_percent : Option ℚ
  username : String
deriving DecidableEq

/-- One dict of the list returned by `get_top_processes`. -/
structure ProcEntry where
  pid : ℕ
  name : String
  cpu_percent : ℚ
  memory_percent : ℚ
  username : String
deriving DecidableEq

/-- The per-process dict built in the enumeration loop of
`get_top_processes`: `None` percentages default to `0.0` (`or 0.0`) and
`memory_percent` is rounded to two decimals. -/
def procEntryOfSample (p : ProcSample) : ProcEntry where
  pid := p.pid
  name := p.name
  cpu_percent := p.cpu_percent.getD 0
  memory_percent := round2 (p.memory_percent.getD 0)
  username := p.username

/-- Comparator of the stable descending CPU sort
(`processes.sort(key=..., reverse=True)`): `a` may precede `b` when
`a.cpu_percent ≥ b.cpu_percent`. -/
def cpuDescLe (a b : ProcEntry) : Bool := decide (b.cpu_percent ≤ a.cpu_percent)

/-- Comparator of the stable descending memory sort. -/
def memDescLe (a b : ProcEntry) : Bool :=
  decide (b.memory_percent ≤ a.memory_percent)

/-- `MacOSPerformanceMonitor.get_top_processes`.  `procs` is the process
enumeration in OS order, `none` marking a row whose read raised
(`NoSuchProcess` / `AccessDenied` / `ZombieProcess`, skipped).  The `Bool`
component records whether the CPU priming loop ran; it runs only when the
raw `sort_by` equals `'cpu'` and more than 5 seconds passed since
`_proc_prime_ts`, and then `_proc_prime_ts` is set to `now`.  An
unrecognized `sort_by` falls back to `'cpu'` for sorting.  Python's
`list.sort(key=..., reverse=True)` is a stable descending sort, embedded
as the stable `mergeSort` with the flipped comparison. -/
def get_top_processes (s : MonitorState) (now : ℚ) (procs : List (Option ProcSample))
    (num : ℕ) (sort_by : String) : List ProcEntry × Bool × MonitorState :=
  let primed : Bool := decide (sort_by = "cpu" ∧ now - s.proc_prime_ts > 5)
  let s1 := if primed then { s with proc_prime_ts := now } else s
  let processes := procs.filterMap fun po => po.map procEntryOfSample
  let key := if sort_by = "cpu" ∨ sort_by = "memory" then sort_by else "cpu"
  let sorted :=
    if key = "cpu" then processes.mergeSort cpuDescLe
    else processes.mergeSort memDescLe
  (sorted.take num, primed, s1)

/-- The metric `get_top_processes` sorts by after its fallback
normalization of `sort_by`. -/
def metricOf (sort_by : String) (p : ProcEntry) : ℚ :=
  if sort_by = "cpu" then p.cpu_percent else p.memory_percent

theorem rateEps_pos : 0 < rateEps := by norm_num [rateEps]

theorem rateWindow_pos (prevTs now : ℚ) : 0 < rateWindow prevTs now :=
  lt_of_lt_of_le rateEps_pos (le_max_right _ _)

theorem mib_pos : 0 < mib := by norm_num [mib]

theorem pyRoundInt_nonneg (x : ℚ) (hx : 0 ≤ x) : 0 ≤ pyRoundInt x := by
  have h0 : (0 : ℤ) ≤ ⌊x⌋ := Int.floor_nonneg.mpr hx
  unfold pyRoundInt
  dsimp only
  split
  · exact h0
  · split
    · omega
    · split <;> omega

theorem round2_nonneg (x : ℚ) (hx : 0 ≤ x) : 0 ≤ round2 x := by
  have h : (0 : ℤ) ≤ pyRoundInt (x * 100) :=
    pyRoundInt_nonneg _ (by positivity)
  have h2 : (0 : ℚ) ≤ (pyRoundInt (x * 100) : ℚ) := by exact_mod_cast h
  unfold round2
  exact div_nonneg h2 (by norm_num)

theorem round2_zero : round2 0 = 0 := by norm_num [round2, pyRoundInt]

theorem length_filterMap_procEntry (procs : List (Option ProcSample)) :
    (procs.filterMap fun po => po.map procEntryOfSample).length =
      (procs.filterMap id).length := by
  induction procs with
  | nil => rfl
  | cons h t ih => cases h <;> simp [List.filterMap_cons, ih]

/-- Claim C6 (confirmed): every rate computation in `get_network_info` and
`get_disk_info` divides by the window `max(now - _prev_sample_ts, 1e-6)`,
which is floored at `1e-6` and hence positive even when the timestamps are
identical, so no rate computation divides by zero. -/
theorem rate_window_floored (s : MonitorState) (net : NetCounters)
    (c : DiskCounters) (parts : List (PartitionEntry × Option DiskUsage))
    (now : ℚ) :
    rateEps ≤ rateWindow s.prev_sample_ts now ∧
    0 < rateWindow s.prev_sample_ts now ∧
    rateWindow now now = rateEps ∧
    (get_network_info s net now).1.send_rate_mib_s =
      round2 (((net.bytes_sent : ℚ) - (s.prev_net_counters.bytes_sent : ℚ)) /
        rateWindow s.prev_sample_ts now / mib) ∧
    ((get_disk_info s parts (some c) now).1.io_stats.map
        fun r => r.read_rate_mib_s) =
      some (round2 (((c.read_bytes : ℚ) - (s.prev_disk_counters.read_bytes : ℚ)) /
        mib / rateWindow s.prev_sample_ts now)) := by
  refine ⟨le_max_right _ _, rateWindow_pos _ _, ?_, ?_, ?_⟩
  · simp [rateWindow, rateEps, sub_self]
  · simp [get_network_info]
  · simp [get_disk_info]

/-- Claim C8 (confirmed): assembling a second report back-to-back with
unchanged network and disk counters yields a rate of exactly 0 for all
four monotonic families on the second call, at arbitrary timestamps. -/
theorem second_report_rates_zero (s : MonitorState) (net : NetCounters)
    (d : DiskCounters) (parts parts2 : List (PartitionEntry × Option DiskUsage))
    (t1 t2 t3 t4 : ℚ) :
    (get_network_info ((get_disk_info (get_network_info s net t1).2
        parts (some d) t2).2) net t3).1.send_rate_mib_s = 0 ∧
    (get_network_info ((get_disk_info (get_network_info s net t1).2
        parts (some d) t2).2) net t3).1.recv_rate_mib_s = 0 ∧
    ((get_disk_info (get_network_info ((get_disk_info (get_network_info s net t1).2
        parts (some d) t2).2) net t3).2 parts2 (some d) t4).1.io_stats.map
      fun r => r.read_rate_mib_s) = some 0 ∧
    ((get_disk_info (get_network_info ((get_disk_info (get_network_info s net t1).2
        parts (some d) t2).2) net t3).2 parts2 (some d) t4).1.io_stats.map
      fun r => r.write_rate_mib_s) = some 0 := by
  simp [get_network_info, get_disk_info, sub_self, zero_div, round2_zero]

/-- Claim C10 (confirmed): `get_disk_info` never modifies the shared
`_prev_sample_ts` even though it replaces `_prev_disk_io`; only
`get_network_info` advances `_prev_sample_ts` (to its call time). -/
theorem disk_info_preserves_sample_ts (s : MonitorState)
    (parts : List (PartitionEntry × Option DiskUsage))
    (counters : Option DiskCounters) (net : NetCounters) (now now2 : ℚ) :
    (get_disk_info s parts counters now).2.prev_sample_ts = s.prev_sample_ts ∧
    (∀ c, counters = some c →
      (get_disk_info s parts counters now).2.prev_disk_counters = c) ∧
    (get_network_info s net now2).2.prev_sample_ts = now2 := by
  cases counters <;> simp [get_disk_info, get_network_info]

theorem disk_info_preserves_sample_ts_witness :
    (get_disk_info (MonitorState.init 0 ⟨0, 0, 0, 0⟩ ⟨0, 0, 0, 0⟩) []
      (some ⟨1, 2, 3, 4⟩) 7).2.prev_disk_counters = ⟨1, 2, 3, 4⟩ :=
  (disk_info_preserves_sample_ts (MonitorState.init 0 ⟨0, 0, 0, 0⟩ ⟨0, 0, 0, 0⟩)
    [] (some ⟨1, 2, 3, 4⟩) ⟨0, 0, 0, 0⟩ 7 7).2.1 ⟨1, 2, 3, 4⟩ rfl

/-- Claim C9 (confirmed): the CPU priming pass of `get_top_processes` runs
exactly when the raw sort key is `'cpu'` and more than 5 seconds elapsed
since `_proc_prime_ts`; when it does not run the recorded timestamp is
unchanged, and when it runs the timestamp becomes the call time. -/
theorem priming_cooldown (s : MonitorState) (now : ℚ)
    (procs : List (Option ProcSample)) (num : ℕ) (sort_by : String) :
    ((get_top_processes s now procs num sort_by).2.1 = true ↔
      (sort_by = "cpu" ∧ now - s.proc_prime_ts > 5)) ∧
    ((get_top_processes s now procs num sort_by).2.1 = false →
      (get_top_processes s now procs num sort_by).2.2.proc_prime_ts =
        s.proc_prime_ts) ∧
    ((get_top_processes s now procs num sort_by).2.1 = true →
      (get_top_processes s now procs num sort_by).2.2.proc_prime_ts = now) := by
  by_cases h : sort_by = "cpu" ∧ now - s.proc_prime_ts > 5 <;>
    simp [get_top_processes, h]

theorem priming_cooldown_witness :
    (get_top_processes (MonitorState.init 0 ⟨0, 0, 0, 0⟩ ⟨0, 0, 0, 0⟩) 10 [] 0
      ("cpu")).2.2.proc_prime_ts = 10 :=
  (priming_cooldown (MonitorState.init 0 ⟨0, 0, 0, 0⟩ ⟨0, 0, 0, 0⟩) 10 [] 0
    ("cpu")).2.2 (by norm_num [get_top_processes, MonitorState.init])

/-- Claim C5 (confirmed): after a successful non-empty probe fetch stored
at time `t` with TTL `T`, a call strictly before `t + T` returns the
cached value without invoking the probe, and a call at or after `t + T`
invokes the probe again. -/
theorem temp_cache_ttl_hit_and_expiry (s : MonitorState) (v t T now : ℚ)
    (probe : ProbeOutcome) (henable : s.enable_temps = true)
    (hval : s.last_temp = some v) (hts : s.last_temp_ts = t)
    (httl : s.temp_refresh_seconds = T) :
    (now < t + T → get_temperature_info s now probe = (some v, false, s)) ∧
    (t + T ≤ now → (get_temperature_info s now probe).2.1 = true) := by
  constructor
  · intro h
    have hc : now - t < T := by linarith
    simp [get_temperature_info, henable, hval, hts, httl, hc]
  · intro h
    have hc : ¬ now - t < T := by linarith
    cases probe with
    | raised => simp [get_temperature_info, henable, hts, httl, hc]
    | completed r =>
      by_cases hrc : r.returncode = 0 <;>
        simp [get_temperature_info, henable, hts, httl, hc, hrc]

theorem temp_cache_ttl_hit_and_expiry_witness :
    get_temperature_info
      { MonitorState.init 0 ⟨0, 0, 0, 0⟩ ⟨0, 0, 0, 0⟩ with
          enable_temps := true, last_temp := some 45, last_temp_ts := 2 } 3
      ProbeOutcome.raised =
      (some 45, false,
        { MonitorState.init 0 ⟨0, 0, 0, 0⟩ ⟨0, 0, 0, 0⟩ with
            enable_temps := true, last_temp := some 45, last_temp_ts := 2 }) :=
  (temp_cache_ttl_hit_and_expiry
    { MonitorState.init 0 ⟨0, 0, 0, 0⟩ ⟨0, 0, 0, 0⟩ with
        enable_temps := true, last_temp := some 45, last_temp_ts := 2 }
    45 2 5 3 ProbeOutcome.raised rfl rfl rfl
    (by norm_num [MonitorState.init])).1 (by norm_num)

/-- Claim C2 is refuted on two points.  First, a probe failure (a raised
exception, here `TimeoutExpired`) does not replace the cache record: the
fetch timestamp stays `0` instead of becoming the call time `100`.
Second, an empty zero-exit probe result does cache `None` with a fresh
timestamp, but that cached `None` is retried on the very next call (one
second later, far inside the 5-second TTL) because the cache-hit test
requires a non-`None` cached value. -/
theorem temp_cache_failure_not_cached :
    (get_temperature_info
      { MonitorState.init 0 ⟨0, 0, 0, 0⟩ ⟨0, 0, 0, 0⟩ with enable_temps := true }
      100 ProbeOutcome.raised).2.2.last_temp_ts = 0 ∧
    (get_temperature_info
      { MonitorState.init 0 ⟨0, 0, 0, 0⟩ ⟨0, 0, 0, 0⟩ with enable_temps := true }
      100 (ProbeOutcome.completed ⟨0, none⟩)).2.2.last_temp_ts = 100 ∧
    (get_temperature_info
      { MonitorState.init 0 ⟨0, 0, 0, 0⟩ ⟨0, 0, 0, 0⟩ with enable_temps := true }
      100 (ProbeOutcome.completed ⟨0, none⟩)).2.2.last_temp = none ∧
    (get_temperature_info
      (get_temperature_info
        { MonitorState.init 0 ⟨0, 0, 0, 0⟩ ⟨0, 0, 0, 0⟩ with enable_temps := true }
        100 (ProbeOutcome.completed ⟨0, none⟩)).2.2
      101 (ProbeOutcome.completed ⟨0, some 42⟩)).2.1 = true := by
  norm_num [get_temperature_info, MonitorState.init]

/-- Claim C2 as amended (proved): on a cache miss with temperatures
enabled, the probe is invoked exactly once; the cache record (value and
fetch timestamp) is replaced only when the probe completes with exit code
0 — a non-empty parse is cached and returned, an empty parse caches
`None`; a raised failure or timeout, or a nonzero exit code, leaves the
cache record untouched and returns `None`.  Because a cache hit also
requires a non-`None` cached value, a cached `None` is retried on every
subsequent call rather than being held until the TTL expires. -/
theorem temp_cache_miss_behavior (s : MonitorState) (now : ℚ)
    (probe : ProbeOutcome) (henable : s.enable_temps = true)
    (hmiss : ¬(now - s.last_temp_ts < s.temp_refresh_seconds ∧
      s.last_temp ≠ none)) :
    (get_temperature_info s now probe).2.1 = true ∧
    (probe = ProbeOutcome.raised →
      get_temperature_info s now probe = (none, true, s)) ∧
    (∀ r, probe = ProbeOutcome.completed r →
      (r.returncode = 0 →
        get_temperature_info s now probe =
          (r.cpu_temp, true,
            { s with last_temp := r.cpu_temp, last_temp_ts := now })) ∧
      (r.returncode ≠ 0 →
        get_temperature_info s now probe = (none, true, s))) := by
  cases probe with
  | raised => simp [get_temperature_info, henable, hmiss]
  | completed r =>
    by_cases hrc : r.returncode = 0 <;>
      simp [get_temperature_info, henable, hmiss, hrc]

theorem temp_cache_miss_behavior_witness :
    get_temperature_info
      { MonitorState.init 0 ⟨0, 0, 0, 0⟩ ⟨0, 0, 0, 0⟩ with enable_temps := true }
      7 (ProbeOutcome.completed ⟨0, some 45⟩) =
      (some 45, true,
        { MonitorState.init 0 ⟨0, 0, 0, 0⟩ ⟨0, 0, 0, 0⟩ with
            enable_temps := true, last_temp := some 45, last_temp_ts := 7 }) :=
  ((temp_cache_miss_behavior
    { MonitorState.init 0 ⟨0, 0, 0, 0⟩ ⟨0, 0, 0, 0⟩ with enable_temps := true }
    7 (ProbeOutcome.completed ⟨0, some 45⟩) rfl
    (by norm_num [MonitorState.init])).2.2 ⟨0, some 45⟩ rfl).1 rfl

/-- Claim C1 is refuted: neither `get_network_info` nor `get_disk_info`
clamps a negative counter delta.  A monitor whose stored baselines are
2097152 bytes (2 MiB) that observes counters reset to 0 one second later
reports a send rate and a disk read rate of -2 MiB/s, not 0. -/
theorem network_rate_negative_on_regression :
    (get_network_info
      (MonitorState.init 0 ⟨2097152, 0, 0, 0⟩ ⟨2097152, 0, 0, 0⟩)
      ⟨0, 0, 0, 0⟩ 1).1.send_rate_mib_s < 0 ∧
    (get_network_info
      (MonitorState.init 0 ⟨2097152, 0, 0, 0⟩ ⟨2097152, 0, 0, 0⟩)
      ⟨0, 0, 0, 0⟩ 1).1.send_rate_mib_s = -2 ∧
    ((get_disk_info
      (MonitorState.init 0 ⟨2097152, 0, 0, 0⟩ ⟨2097152, 0, 0, 0⟩)
      [] (some ⟨0, 0, 0, 0⟩) 1).1.io_stats.map
        fun r => r.read_rate_mib_s) = some (-2) := by
  norm_num [get_network_info, get_disk_info, MonitorState.init, rateWindow,
    rateEps, mib, round2, pyRoundInt]

/-- Claim C1 as amended (proved): the computed transfer rates are ≥ 0 for
every step in which no counter regressed (new value ≥ stored previous
value); the code contains no `max(0, ...)` clamp, so a regression produces
a negative rate for that step (see the counterexample); in either case the
stored baseline advances to the regressed value. -/
theorem rates_nonneg_without_regression (s : MonitorState) (net : NetCounters)
    (c : DiskCounters) (parts : List (PartitionEntry × Option DiskUsage))
    (now : ℚ)
    (hsent : s.prev_net_counters.bytes_sent ≤ net.bytes_sent)
    (hrecv : s.prev_net_counters.bytes_recv ≤ net.bytes_recv)
    (hread : s.prev_disk_counters.read_bytes ≤ c.read_bytes)
    (hwrite : s.prev_disk_counters.write_bytes ≤ c.write_bytes) :
    0 ≤ (get_network_info s net now).1.send_rate_mib_s ∧
    0 ≤ (get_network_info s net now).1.recv_rate_mib_s ∧
    (∀ r, (get_disk_info s parts (some c) now).1.io_stats = some r →
      0 ≤ r.read_rate_mib_s ∧ 0 ≤ r.write_rate_mib_s) ∧
    (get_network_info s net now).2.prev_net_counters = net ∧
    (get_disk_info s parts (some c) now).2.prev_disk_counters = c := by
  have hdt : (0 : ℚ) ≤ rateWindow s.prev_sample_ts now :=
    le_of_lt (rateWindow_pos _ _)
  have hmib : (0 : ℚ) ≤ mib := le_of_lt mib_pos
  refine ⟨?_, ?_, ?_, ?_, ?_⟩
  · simp only [get_network_info]
    exact round2_nonneg _ (div_nonneg (div_nonneg
      (sub_nonneg.mpr (by exact_mod_cast hsent)) hdt) hmib)
  · simp only [get_network_info]
    exact round2_nonneg _ (div_nonneg (div_nonneg
      (sub_nonneg.mpr (by exact_mod_cast hrecv)) hdt) hmib)
  · intro r hr
    simp only [get_disk_info, Option.some.injEq] at hr
    constructor
    · rw [← hr]
      exact round2_nonneg _ (div_nonneg (div_nonneg
        (sub_nonneg.mpr (by exact_mod_cast hread)) hmib) hdt)
    · rw [← hr]
      exact round2_nonneg _ (div_nonneg (div_nonneg
        (sub_nonneg.mpr (by exact_mod_cast hwrite)) hmib) hdt)
  · simp [get_network_info]
  · simp [get_disk_info]

theorem rates_nonneg_without_regression_witness :
    0 ≤ (get_network_info (MonitorState.init 0 ⟨10, 20, 0, 0⟩ ⟨30, 40, 0, 0⟩)
      ⟨11, 22, 0, 0⟩ 1).1.send_rate_mib_s :=
  (rates_nonneg_without_regression
    (MonitorState.init 0 ⟨10, 20, 0, 0⟩ ⟨30, 40, 0, 0⟩) ⟨11, 22, 0, 0⟩
    ⟨33, 44, 0, 0⟩ [] 1 (by norm_num [MonitorState.init])
    (by norm_num [MonitorState.init]) (by norm_num [MonitorState.init])
    (by norm_num [MonitorState.init])).1

/-- Claim C7 is refuted: the constructor samples the counters as the first
baselines, so the first rate reported for a family after construction is
measured against the construction-time counters, not defined to be 0.  A
monitor constructed at bytes_sent = 1000 that first reports at
bytes_sent = 1049576 one second later reports 1 MiB/s, not 0. -/
theorem first_rate_after_init_nonzero :
    (get_network_info (MonitorState.init 0 ⟨1000, 0, 0, 0⟩ ⟨0, 0, 0, 0⟩)
      ⟨1049576, 0, 0, 0⟩ 1).1.send_rate_mib_s = 1 ∧
    (get_network_info (MonitorState.init 0 ⟨1000, 0, 0, 0⟩ ⟨0, 0, 0, 0⟩)
      ⟨1049576, 0, 0, 0⟩ 1).1.send_rate_mib_s ≠ 0 := by
  norm_num [get_network_info, MonitorState.init, rateWindow, rateEps, mib,
    round2, pyRoundInt]

/-- Claim C7 as amended (proved): the first rate reported for each
monotonic family after construction is computed against the counters
sampled in the constructor, not defined to be 0; whenever the counters are
unchanged since construction that first rate is exactly 0.  (A changed
counter generally reports a nonzero rate, as the counterexample shows,
though a change small enough to round to 0.00 at the two-decimal display
precision also reports 0, so being unchanged is sufficient, not
necessary.) -/
theorem first_rate_zero_of_unchanged_since_init (t0 now : ℚ)
    (net0 net1 : NetCounters) (disk0 c1 : DiskCounters)
    (parts : List (PartitionEntry × Option DiskUsage))
    (hsent : net1.bytes_sent = net0.bytes_sent)
    (hrecv : net1.bytes_recv = net0.bytes_recv)
    (hread : c1.read_bytes = disk0.read_bytes)
    (hwrite : c1.write_bytes = disk0.write_bytes) :
    (get_network_info (MonitorState.init t0 net0 disk0) net1 now).1.send_rate_mib_s = 0 ∧
    (get_network_info (MonitorState.init t0 net0 disk0) net1 now).1.recv_rate_mib_s = 0 ∧
    ((get_disk_info (MonitorState.init t0 net0 disk0) parts (some c1) now).1.io_stats.map
      fun r => r.read_rate_mib_s) = some 0 ∧
    ((get_disk_info (MonitorState.init t0 net0 disk0) parts (some c1) now).1.io_stats.map
      fun r => r.write_rate_mib_s) = some 0 := by
  simp [get_network_info, get_disk_info, MonitorState.init, hsent, hrecv,
    hread, hwrite, sub_self, zero_div, round2_zero]

theorem first_rate_zero_of_unchanged_since_init_witness :
    (get_network_info (MonitorState.init 0 ⟨5, 6, 7, 8⟩ ⟨1, 2, 3, 4⟩)
      ⟨5, 6, 9, 9⟩ 1).1.send_rate_mib_s = 0 :=
  (first_rate_zero_of_unchanged_since_init 0 1 ⟨5, 6, 7, 8⟩ ⟨5, 6, 9, 9⟩
    ⟨1, 2, 3, 4⟩ ⟨1, 2, 5, 5⟩ [] rfl rfl rfl rfl).1

theorem cpuDescLe_trans : ∀ (a b c : ProcEntry),
    cpuDescLe a b → cpuDescLe b c → cpuDescLe a c := by
  intro a b c hab hbc
  exact decide_eq_true (le_trans (of_decide_eq_true hbc) (of_decide_eq_true hab))

theorem cpuDescLe_total : ∀ (a b : ProcEntry), cpuDescLe a b || cpuDescLe b a := by
  intro a b
  simp only [cpuDescLe, Bool.or_eq_true, decide_eq_true_iff]
  exact le_total b.cpu_percent a.cpu_percent

theorem memDescLe_trans : ∀ (a b c : ProcEntry),
    memDescLe a b → memDescLe b c → memDescLe a c := by
  intro a b c hab hbc
  exact decide_eq_true (le_trans (of_decide_eq_true hbc) (of_decide_eq_true hab))

theorem memDescLe_total : ∀ (a b : ProcEntry), memDescLe a b || memDescLe b a := by
  intro a b
  simp only [memDescLe, Bool.or_eq_true, decide_eq_true_iff]
  exact le_total b.memory_percent a.memory_percent

theorem get_top_processes_fst_cpu (s : MonitorState) (now : ℚ)
    (procs : List (Option ProcSample)) (num : ℕ) :
    (get_top_processes s now procs num ("cpu")).1 =
      ((procs.filterMap fun po => po.map procEntryOfSample).mergeSort
        cpuDescLe).take num := by
  simp [get_top_processes]

theorem get_top_processes_fst_memory (s : MonitorState) (now : ℚ)
    (procs : List (Option ProcSample)) (num : ℕ) :
    (get_top_processes s now procs num ("memory")).1 =
      ((procs.filterMap fun po => po.map procEntryOfSample).mergeSort
        memDescLe).take num := by
  simp [get_top_processes]

/-- Claim C4 (confirmed): for either recognized sort key, the list
returned by `get_top_processes` has length exactly
`min num (number of successfully-read process rows)` and is sorted in
descending order of the selected metric. -/
theorem top_processes_length_and_sorted (s : MonitorState) (now : ℚ)
    (procs : List (Option ProcSample)) (num : ℕ) (sort_by : String)
    (hsb : sort_by = "cpu" ∨ sort_by = "memory") :
    (get_top_processes s now procs num sort_by).1.length =
      min num (procs.filterMap id).length ∧
    (get_top_processes s now procs num sort_by).1.Pairwise
      (fun a b => metricOf sort_by b ≤ metricOf sort_by a) := by
  rcases hsb with h | h <;> subst h
  · constructor
    · rw [get_top_processes_fst_cpu, List.length_take, List.length_mergeSort,
        length_filterMap_procEntry]
    · rw [get_top_processes_fst_cpu]
      refine List.Pairwise.sublist (List.take_sublist _ _) ?_
      have hp := List.sorted_mergeSort cpuDescLe_trans cpuDescLe_total
        (procs.filterMap fun po => po.map procEntryOfSample)
      exact hp.imp fun h => by simpa [metricOf, cpuDescLe] using h
  · constructor
    · rw [get_top_processes_fst_memory, List.length_take, List.length_mergeSort,
        length_filterMap_procEntry]
    · rw [get_top_processes_fst_memory]
      refine List.Pairwise.sublist (List.take_sublist _ _) ?_
      have hp := List.sorted_mergeSort memDescLe_trans memDescLe_total
        (procs.filterMap fun po => po.map procEntryOfSample)
      exact hp.imp fun h => by simpa [metricOf, memDescLe] using h

theorem top_processes_length_and_sorted_witness :
    (get_top_processes (MonitorState.init 0 ⟨0, 0, 0, 0⟩ ⟨0, 0, 0, 0⟩) 0
      [some ⟨1, "a", some 10, some 1, "u"⟩, none,
       some ⟨2, "b", some 5, some 2, "u"⟩] 2 ("cpu")).1.length =
      min 2 (([some ⟨1, "a", some 10, some 1, "u"⟩, none,
        some ⟨2, "b", some 5, some 2, "u"⟩] :
          List (Option ProcSample)).filterMap id).length :=
  (top_processes_length_and_sorted
    (MonitorState.init 0 ⟨0, 0, 0, 0⟩ ⟨0, 0, 0, 0⟩) 0
    [some ⟨1, "a", some 10, some 1, "u"⟩, none,
     some ⟨2, "b", some 5, some 2, "u"⟩] 2 ("cpu") (Or.inl rfl)).1

/-- Claim C3 is refuted: ties in the selected metric are not broken by
ascending pid.  With the spec's own three-entity scenario enumerated in
descending-pid order, the two entities with equal cpu 30 come out in
enumeration order `[pid 3, pid 2]`, not `[pid 2, pid 3]`: the sort is
stable with respect to enumeration order and never consults the pid. -/
theorem top_processes_tie_keeps_enumeration_order :
    ((get_top_processes (MonitorState.init 0 ⟨0, 0, 0, 0⟩ ⟨0, 0, 0, 0⟩) 0
      [some ⟨3, "c", some 30, some 1, "u"⟩, some ⟨2, "b", some 30, some 1, "u"⟩,
       some ⟨1, "a", some 10, some 1, "u"⟩] 2 ("cpu")).1.map
        fun p => p.pid) = [3, 2] ∧
    ((get_top_processes (MonitorState.init 0 ⟨0, 0, 0, 0⟩ ⟨0, 0, 0, 0⟩) 0
      [some ⟨3, "c", some 30, some 1, "u"⟩, some ⟨2, "b", some 30, some 1, "u"⟩,
       some ⟨1, "a", some 10, some 1, "u"⟩] 2 ("cpu")).1.map
        fun p => p.cpu_percent) = [30, 30] := by
  norm_num [get_top_processes, MonitorState.init, procEntryOfSample,
    cpuDescLe, List.filterMap_cons, List.mergeSort, List.merge]

/-- A pair that is a sublist of a duplicate-free list survives into every
prefix of that list that still contains the second component: the first
component cannot have been cut while the second remains. -/
theorem pair_sublist_take_of_mem {α : Type _} {a b : α} :
    ∀ (l : List α) (n : ℕ), List.Sublist [a, b] l → l.Nodup → b ∈ l.take n →
      List.Sublist [a, b] (l.take n) := by
  intro l
  induction l with
  | nil => intro n h hnd hb; simp at hb
  | cons x t ih =>
    intro n h hnd hb
    cases n with
    | zero => simp at hb
    | succ m =>
      simp only [List.take_succ_cons] at hb ⊢
      cases h with
      | cons₂ y h2 =>
        have hbt : b ∈ t := h2.subset (List.mem_singleton_self b)
        have hat : a ∉ t := (List.nodup_cons.mp hnd).1
        have hab : a ≠ b := fun e => hat (e ▸ hbt)
        have hbm : b ∈ t.take m := by
          rcases List.mem_cons.mp hb with e | e
          · exact absurd e.symm hab
          · exact e
        exact List.Sublist.cons₂ _ (List.singleton_sublist.mpr hbm)
      | cons y h2 =>
        rcases List.mem_cons.mp hb with e | e
        · have hbt : b ∈ t := h2.subset (by simp)
          exact absurd (e ▸ hbt) (List.nodup_cons.mp hnd).1
        · exact (ih m h2 (List.nodup_cons.mp hnd).2 e).cons _

/-- Claim C3 as amended (proved): for either recognized sort key, when two
distinct successfully-read entities tie on the selected metric (more
generally, when the earlier one's metric is at least the later one's), the
one enumerated earlier keeps its place ahead of the other in the ranked
output: whenever the later one appears in the truncated ranking, the
earlier one appears before it.  The sort is stable in enumeration order
and never consults the pid, so the output is deterministic for a fixed
enumeration order but not pid-ordered across ties. -/
theorem top_processes_tie_stability (s : MonitorState) (now : ℚ)
    (procs : List (Option ProcSample)) (num : ℕ) (sort_by : String)
    (a b : ProcEntry) (hsb : sort_by = "cpu" ∨ sort_by = "memory")
    (hnd : (procs.filterMap fun po => po.map procEntryOfSample).Nodup)
    (hmetric : metricOf sort_by b ≤ metricOf sort_by a)
    (hsub : List.Sublist [a, b]
      (procs.filterMap fun po => po.map procEntryOfSample))
    (hb : b ∈ (get_top_processes s now procs num sort_by).1) :
    List.Sublist [a, b] (get_top_processes s now procs num sort_by).1 := by
  rcases hsb with h | h <;> subst h
  · rw [get_top_processes_fst_cpu] at hb ⊢
    have hstable := List.pair_sublist_mergeSort cpuDescLe_trans cpuDescLe_total
      (decide_eq_true (by simpa [metricOf] using hmetric)) hsub
    exact pair_sublist_take_of_mem _ num hstable
      (((List.mergeSort_perm _ _).nodup_iff).mpr hnd) hb
  · rw [get_top_processes_fst_memory] at hb ⊢
    have hstable := List.pair_sublist_mergeSort memDescLe_trans memDescLe_total
      (decide_eq_true (by simpa [metricOf] using hmetric)) hsub
    exact pair_sublist_take_of_mem _ num hstable
      (((List.mergeSort_perm _ _).nodup_iff).mpr hnd) hb

theorem top_processes_tie_stability_witness :
    List.Sublist
      [procEntryOfSample ⟨2, "b", some 30, some 1, "u"⟩,
       procEntryOfSample ⟨3, "c", some 30, some 1, "u"⟩]
      (get_top_processes (MonitorState.init 0 ⟨0, 0, 0, 0⟩ ⟨0, 0, 0, 0⟩) 0
        [some ⟨2, "b", some 30, some 1, "u"⟩, some ⟨1, "a", some 10, some 1, "u"⟩,
         some ⟨3, "c", some 30, some 1, "u"⟩] 2 ("cpu")).1 :=
  top_processes_tie_stability (MonitorState.init 0 ⟨0, 0, 0, 0⟩ ⟨0, 0, 0, 0⟩) 0
    [some ⟨2, "b", some 30, some 1, "u"⟩, some ⟨1, "a", some 10, some 1, "u"⟩,
     some ⟨3, "c", some 30, some 1, "u"⟩]
    2 ("cpu") (procEntryOfSample ⟨2, "b", some 30, some 1, "u"⟩)
    (procEntryOfSample ⟨3, "c", some 30, some 1, "u"⟩) (Or.inl rfl)
    (by norm_num [List.filterMap_cons, procEntryOfSample])
    (by norm_num [metricOf, procEntryOfSample])
    (by norm_num [List.filterMap_cons])
    (by norm_num [get_top_processes, MonitorState.init, procEntryOfSample,
      cpuDescLe, List.filterMap_cons, List.mergeSort, List.merge])
